import Mathlib

/-!
Verification of the smartwatch review sentiment pipeline (src/app.py).

The pipeline's pure core is embedded shallowly: Python strings are Lean
strings (matching works on their character lists), Python floats are exact
rationals, and the two external collaborators — the TextBlob polarity
scorer and the TextBlob sentence tokenizer — are parameters of the
functions that call them.
-/

namespace SmartwatchApp

/-- Python str.lower on the character list of an (ASCII) string. -/
def pyLower (s : List Char) : List Char := s.map Char.toLower

/-- Whether the first character list is an initial segment of the second. -/
def pyStartsWith : List Char → List Char → Bool
  | [], _ => true
  | _ :: _, [] => false
  | a :: as, b :: bs => a == b && pyStartsWith as bs

/-- Python substring test `needle in haystack`: contiguous infix. -/
def pyContains (needle : List Char) : List Char → Bool
  | [] => needle.isEmpty
  | b :: bs => pyStartsWith needle (b :: bs) || pyContains needle bs

/-- Python str.strip on a character list: drop whitespace from both ends. -/
def pyStrip (s : List Char) : List Char :=
  ((s.dropWhile Char.isWhitespace).reverse.dropWhile Char.isWhitespace).reverse

/-- Python str.strip lifted back to strings. -/
def pyStripStr (s : String) : String := String.mk (pyStrip s.toList)

/-- The domain-noun keyword table of is_smartwatch_related. -/
def smartwatch_keywords : List String :=
  ["smartwatch", "smart watch", "watch", "wristwatch", "fitness tracker",
   "wearable", "device", "product", "purchase", "bought", "buying", "review",
   "reviews", "rating", "rated", "customer", "quality", "battery", "display",
   "screen", "band", "strap", "features", "app", "notification", "heart rate",
   "step", "activity", "sleep", "waterproof", "durable", "comfortable",
   "design", "price", "cost", "delivery", "shipping", "amazon", "recommend",
   "satisfied", "disappointed"]

/-- The review-phrasing pattern table of is_smartwatch_related. -/
def review_patterns : List String :=
  ["star", "stars", "out of", "rating", "would recommend", "great product",
   "good product", "bad product", "poor quality", "excellent", "terrible",
   "love it", "hate it", "works well", "doesn\x27t work", "worth", "money",
   "value"]

/-- Relevance Detector: keyword-count at least 1 or pattern-count at least 2
on the case-folded text (src/app.py, is_smartwatch_related). -/
def is_smartwatch_related (text : String) : Bool :=
  let text_lower := pyLower text.toList
  let keyword_count :=
    smartwatch_keywords.countP (fun keyword => pyContains keyword.toList text_lower)
  let pattern_count :=
    review_patterns.countP (fun pat => pyContains pat.toList text_lower)
  decide (1 ≤ keyword_count) || decide (2 ≤ pattern_count)

/-- Polarity Classifier thresholds (src/app.py, classify_polarity). -/
def classify_polarity (polarity : ℚ) : String :=
  if polarity > 5/100 then "Positive"
  else if polarity < -(5/100) then "Negative"
  else "Neutral"

/-- Negative trigger phrases of apply_domain_rules. -/
def negative_triggers : List String :=
  ["draining fast", "battery drain", "battery draining",
   "battery health is draining", "battery issue", "battery problem",
   "battery dies", "battery life is poor", "overheating", "laggy",
   "watch stopped working", "screen cracked", "strap broke"]

/-- Positive trigger phrases of apply_domain_rules. -/
def positive_triggers : List String :=
  ["battery lasts all day", "excellent battery", "great battery life",
   "long battery", "love the battery", "fast charging", "works flawlessly",
   "very responsive"]

/-- Whether some negative trigger occurs in the case-folded text. -/
def negTriggered (text : String) : Bool :=
  negative_triggers.any (fun trigger => pyContains trigger.toList (pyLower text.toList))

/-- Whether some positive trigger occurs in the case-folded text. -/
def posTriggered (text : String) : Bool :=
  positive_triggers.any (fun trigger => pyContains trigger.toList (pyLower text.toList))

/-- Domain Rule Overrider (src/app.py, apply_domain_rules): negative triggers
first, then positive triggers, else pass-through. -/
def apply_domain_rules (text sentiment : String) (polarity : ℚ) : String × ℚ :=
  if negTriggered text then
    ("Negative", if polarity ≠ 0 then -|polarity| else -(4/10))
  else if posTriggered text then
    ("Positive", if polarity ≠ 0 then |polarity| else 4/10)
  else
    (sentiment, polarity)

/-- Sentiment sub-pipeline (src/app.py, get_sentiment): base engine score,
then classifier, then domain overrides. The base engine (TextBlob) is the
`score` parameter. -/
def get_sentiment (score : String → ℚ) (text : String) : String × ℚ :=
  let polarity := score text
  let sentiment := classify_polarity polarity
  apply_domain_rules text sentiment polarity

/-- Round a rational to the nearest integer, ties to even (Python round). -/
def roundHalfEven (q : ℚ) : ℤ :=
  if q - ⌊q⌋ < 1/2 then ⌊q⌋
  else if 1/2 < q - ⌊q⌋ then ⌊q⌋ + 1
  else if ⌊q⌋ % 2 = 0 then ⌊q⌋ else ⌊q⌋ + 1

/-- Python round(q, n) on exact rationals. -/
def pyRound (q : ℚ) (n : ℕ) : ℚ := (roundHalfEven (q * 10 ^ n) : ℚ) / 10 ^ n

/-- Confidence Estimator (src/app.py, get_confidence). -/
def get_confidence (polarity : ℚ) : ℚ := pyRound (|polarity| * 100) 1

/-- The fixed aspect table of analyze_aspects, in declaration order. -/
def aspect_keywords : List (String × List String) :=
  [("Battery", ["battery", "charge", "charging", "power", "life"]),
   ("Display", ["display", "screen", "brightness", "touch", "resolution"]),
   ("Comfort", ["strap", "band", "comfort", "fit", "wear"]),
   ("Fitness Tracking", ["fitness", "heart rate", "steps", "tracking", "sleep"]),
   ("Notifications", ["notification", "alerts", "calls", "messages"]),
   ("Design & Build", ["design", "build", "quality", "durable", "style"]),
   ("Price & Value", ["price", "cost", "value", "worth"])]

/-- One entry of the aspect analysis output. -/
structure AspectResult where
  aspect : String
  sentiment : String
  polarity : ℚ
  confidence : ℚ
  evidence : List String
deriving DecidableEq

/-- The sentences (in original order) matching at least one keyword. -/
def matchedSentencesFor (keywords : List String) (sentences : List String) : List String :=
  sentences.filter
    (fun sentence => keywords.any (fun keyword => pyContains keyword.toList (pyLower sentence.toList)))

/-- Body of the aspect loop of analyze_aspects: nothing for an aspect with
no matched sentence, else one entry scored on the space-joined matches. -/
def aspectEntry (score : String → ℚ) (sentences : List String)
    (ak : String × List String) : Option AspectResult :=
  if (matchedSentencesFor ak.2 sentences).isEmpty then none
  else
    some { aspect := ak.1,
           sentiment :=
             (get_sentiment score
               (String.intercalate " " (matchedSentencesFor ak.2 sentences))).1,
           polarity :=
             pyRound (get_sentiment score
               (String.intercalate " " (matchedSentencesFor ak.2 sentences))).2 3,
           confidence :=
             get_confidence (get_sentiment score
               (String.intercalate " " (matchedSentencesFor ak.2 sentences))).2,
           evidence := (matchedSentencesFor ak.2 sentences).take 2 }

/-- Aspect Extractor (src/app.py, analyze_aspects), over an already
tokenized sentence list; `score` is the base engine. Aspects with no
matching sentence are skipped; matched sentences are space-joined and
re-scored by the sentiment sub-pipeline. -/
def analyze_aspects (score : String → ℚ) (sentences : List String) : List AspectResult :=
  aspect_keywords.filterMap (aspectEntry score sentences)

/-- TextBlob sentence access with the source's fallback: a whole text that
tokenizes to no sentences is treated as a single sentence. -/
def sentencesOf (tokenize : String → List String) (text : String) : List String :=
  let ts := tokenize text
  if ts.isEmpty then [text] else ts

/-- Response of the /api/analyze-review route. -/
inductive ReviewResponse where
  | badRequest (msg : String)
  | notRelevant (message : String)
  | analysis (relevant : Bool) (sentiment : String) (polarity : ℚ)
      (confidence : ℚ) (aspects : List AspectResult)
deriving DecidableEq

/-- The /api/analyze-review route (src/app.py, api_analyze_review); the
base engine and the sentence tokenizer are the external parameters. -/
def api_analyze_review (score : String → ℚ) (tokenize : String → List String)
    (text : String) (enforce : Bool) : ReviewResponse :=
  let review_text := pyStripStr text
  if review_text = "" then .badRequest "Field \x27text\x27 is required."
  else
    let is_relevant := is_smartwatch_related review_text
    if enforce && !is_relevant then
      .notRelevant "Text does not appear to be a smartwatch/product review."
    else
      let sp := get_sentiment score review_text
      .analysis is_relevant sp.1 (pyRound sp.2 3) (get_confidence sp.2)
        (analyze_aspects score (sentencesOf tokenize review_text))

/-- One row of the batch output. A blank or missing cell leaves every
field empty; an irrelevant row records only the text and relevant=false. -/
structure RowResult where
  review : Option String
  sentiment : Option String
  polarity : Option ℚ
  confidence : Option ℚ
  relevant : Option Bool
deriving DecidableEq

/-- A cell the batch loop treats as blank or missing: absent, or empty
after stripping. -/
def isBlankCell : Option String → Bool
  | some s => pyStripStr s == ""
  | none => true

/-- Per-row work of the batch loop (src/app.py, api_analyze_batch). -/
def analyze_row (score : String → ℚ) (raw : Option String) : RowResult :=
  match raw with
  | some s =>
      if pyStripStr s = "" then ⟨none, none, none, none, none⟩
      else if is_smartwatch_related s then
        let sp := get_sentiment score s
        ⟨some s, some sp.1, some (pyRound sp.2 3), some (get_confidence sp.2), some true⟩
      else ⟨some s, none, none, none, some false⟩
  | none => ⟨none, none, none, none, none⟩

/-- The 3-way sentiment distribution of the batch summary. -/
structure SentimentCounts where
  positive : ℕ
  neutral : ℕ
  negative : ℕ
deriving DecidableEq

/-- The summary block of the batch response. -/
structure BatchSummary where
  total_rows : ℕ
  text_column : String
  relevant_count : ℕ
  irrelevant_count : ℕ
  sentiment_distribution : SentimentCounts
  average_polarity : Option ℚ
deriving DecidableEq

/-- The /api/analyze-batch route after column selection (src/app.py,
api_analyze_batch): per-row results plus aggregate summary. -/
def api_analyze_batch (score : String → ℚ) (text_col : String)
    (rows : List (Option String)) : BatchSummary × List RowResult :=
  let results := rows.map (analyze_row score)
  let relevant_count := results.countP (fun r => r.relevant == some true)
  let irrelevant_count := results.countP (fun r => r.relevant == some false)
  let relevant_reviews := results.filter (fun r => r.relevant == some true)
  let counts : SentimentCounts :=
    { positive := relevant_reviews.countP (fun r => r.sentiment == some "Positive"),
      neutral := relevant_reviews.countP (fun r => r.sentiment == some "Neutral"),
      negative := relevant_reviews.countP (fun r => r.sentiment == some "Negative") }
  let polys := relevant_reviews.filterMap (fun r => r.polarity)
  let avg_polarity :=
    if relevant_reviews.isEmpty then none
    else if polys.isEmpty then none
    else some (pyRound (polys.sum / polys.length) 3)
  ({ total_rows := rows.length, text_column := text_col,
     relevant_count := relevant_count, irrelevant_count := irrelevant_count,
     sentiment_distribution := counts, average_polarity := avg_polarity },
   results)

/-- A column of the uploaded tabular file: its name and whether pandas
types it as text (dtype object). -/
structure Column where
  name : String
  isText : Bool
deriving DecidableEq

/-- Text-column selection of /api/analyze-batch (src/app.py): an explicitly
requested (non-empty) name is validated against all column names; automatic
selection walks the preference list over text-typed columns and falls back
to the first text-typed column. -/
def choose_text_column (columns : List Column) (requested : Option String) :
    Except String String :=
  let text_columns := (columns.filter (fun c => c.isText)).map (fun c => c.name)
  match text_columns with
  | [] => .error "No text-like columns found in the CSV."
  | c0 :: _ =>
    let req := match requested with
      | some rc => if rc = "" then none else some rc
      | none => none
    match req with
    | some rc =>
        if (columns.map (fun c => c.name)).contains rc then .ok rc
        else .error ("text_column \x27" ++ rc ++ "\x27 not found.")
    | none =>
        let preferred := ["reviews.text", "text", "review", "reviews", "comment", "comments"]
        match preferred.find? (fun col => text_columns.contains col) with
        | some col => .ok col
        | none => .ok c0

/-- The classifier answers "Negative" strictly below the lower threshold. -/
theorem classify_neg_of_lt (p : ℚ) (h : p < -(5/100)) : classify_polarity p = "Negative" := by
  unfold classify_polarity
  rw [if_neg (by linarith), if_pos h]

/-- The classifier answers "Positive" strictly above the upper threshold. -/
theorem classify_pos_of_gt (p : ℚ) (h : 5/100 < p) : classify_polarity p = "Positive" := by
  unfold classify_polarity
  rw [if_pos h]

/-- Claim C1: for every rational polarity p, the Polarity Classifier returns
"Positive" iff p > 0.05 and "Negative" iff p < -0.05, "Neutral" otherwise;
both boundary values 0.05 and -0.05 yield "Neutral". -/
theorem classify_polarity_thresholds (p : ℚ) :
    (classify_polarity p = "Positive" ↔ 5/100 < p) ∧
    (classify_polarity p = "Negative" ↔ p < -(5/100)) ∧
    (classify_polarity p = "Neutral" ↔ ¬ 5/100 < p ∧ ¬ p < -(5/100)) ∧
    classify_polarity (5/100) = "Neutral" ∧
    classify_polarity (-(5/100)) = "Neutral" := by
  refine ⟨?_, ?_, ?_, by norm_num [classify_polarity], by norm_num [classify_polarity]⟩ <;>
    · unfold classify_polarity
      split_ifs with h1 h2 <;> simp_all <;> linarith

/-- Claim C2: whenever a negative trigger phrase occurs in the case-folded
text, the Domain Rule Overrider forces label "Negative", with polarity
-|p| for nonzero p and the fixed substitute -0.4 for p = 0. -/
theorem apply_domain_rules_negative_override (text sentiment : String) (p : ℚ)
    (h : negTriggered text = true) :
    (apply_domain_rules text sentiment p).1 = "Negative" ∧
    (p ≠ 0 → (apply_domain_rules text sentiment p).2 = -|p|) ∧
    (p = 0 → (apply_domain_rules text sentiment p).2 = -(4/10)) := by
  refine ⟨by simp [apply_domain_rules, h], fun hp => ?_, fun hp => ?_⟩
  · simp [apply_domain_rules, h, hp]
  · simp [apply_domain_rules, h, hp]

/-- Claim C2 witness: the spec's zero-base example, "the battery is draining
fast" with base polarity 0, is forced to ("Negative", -0.4). -/
theorem apply_domain_rules_negative_override_witness :
    (apply_domain_rules "the battery is draining fast" "Neutral" 0).1 = "Negative" ∧
    (apply_domain_rules "the battery is draining fast" "Neutral" 0).2 = -(4/10) :=
  ⟨(apply_domain_rules_negative_override "the battery is draining fast" "Neutral" 0
      (by with_unfolding_all decide)).1,
   (apply_domain_rules_negative_override "the battery is draining fast" "Neutral" 0
      (by with_unfolding_all decide)).2.2 rfl⟩

/-- Claim C3: when the text matches both a negative and a positive trigger
the negative check runs first and the label is "Negative"; when it matches
no trigger of either kind the (label, polarity) pair passes through
unchanged. -/
theorem apply_domain_rules_precedence (text sentiment : String) (p : ℚ) :
    (negTriggered text = true → posTriggered text = true →
      (apply_domain_rules text sentiment p).1 = "Negative") ∧
    (negTriggered text = false → posTriggered text = false →
      apply_domain_rules text sentiment p = (sentiment, p)) := by
  constructor
  · intro hn _
    simp [apply_domain_rules, hn]
  · intro hn hp
    simp [apply_domain_rules, hn, hp]

/-- Claim C3 witness: a text holding both "battery drain" and
"fast charging" comes out "Negative", and a trigger-free text passes
through unchanged. -/
theorem apply_domain_rules_precedence_witness :
    (apply_domain_rules "battery drain but fast charging" "Positive" (1/2)).1 = "Negative" ∧
    apply_domain_rules "nothing here" "Neutral" (1/10) = ("Neutral", 1/10) :=
  ⟨(apply_domain_rules_precedence "battery drain but fast charging" "Positive" (1/2)).1
      (by with_unfolding_all decide) (by with_unfolding_all decide),
   (apply_domain_rules_precedence "nothing here" "Neutral" (1/10)).2
      (by with_unfolding_all decide) (by with_unfolding_all decide)⟩

/-- Half-even rounding never goes below a lower bound of zero. -/
theorem roundHalfEven_nonneg (q : ℚ) (h : 0 ≤ q) : 0 ≤ roundHalfEven q := by
  unfold roundHalfEven
  have h0 : (0:ℤ) ≤ ⌊q⌋ := Int.floor_nonneg.mpr h
  split_ifs <;> omega

/-- Half-even rounding never exceeds an integer upper bound. -/
theorem roundHalfEven_le (q : ℚ) (n : ℤ) (h : q ≤ n) : roundHalfEven q ≤ n := by
  have hf : ⌊q⌋ ≤ n := by
    have := Int.floor_le_floor h
    simpa using this
  have hlt : 1/2 ≤ q - ⌊q⌋ → ⌊q⌋ < n := by
    intro hfr
    have h1 : (⌊q⌋ : ℚ) < q := by linarith
    have h2 : (⌊q⌋ : ℚ) < (n : ℚ) := lt_of_lt_of_le h1 h
    exact_mod_cast h2
  unfold roundHalfEven
  split_ifs with h1 h2 h3
  · exact hf
  · have := hlt (by linarith)
    omega
  · exact hf
  · have := hlt (by linarith)
    omega

/-- Claim C5: the Confidence Estimator computes round(|p| * 100, 1); it
sends 0 to 0, 1 to 100 and -0.4 to 40, and stays within [0, 100] on
polarities within [-1, 1]. -/
theorem get_confidence_spec :
    (∀ p : ℚ, get_confidence p = pyRound (|p| * 100) 1) ∧
    get_confidence 0 = 0 ∧
    get_confidence 1 = 100 ∧
    get_confidence (-(4/10)) = 40 ∧
    (∀ p : ℚ, -1 ≤ p → p ≤ 1 → 0 ≤ get_confidence p ∧ get_confidence p ≤ 100) := by
  refine ⟨fun p => rfl, by with_unfolding_all decide, by with_unfolding_all decide,
    by with_unfolding_all decide, fun p h1 h2 => ?_⟩
  have habs : |p| ≤ 1 := abs_le.mpr ⟨h1, h2⟩
  have h0 : (0:ℚ) ≤ |p| := abs_nonneg p
  have hq0 : (0:ℚ) ≤ |p| * 100 * 10 ^ 1 := by positivity
  have hqle : |p| * 100 * 10 ^ 1 ≤ ((1000 : ℤ) : ℚ) := by
    push_cast
    nlinarith
  have hr0 := roundHalfEven_nonneg _ hq0
  have hrle := roundHalfEven_le _ 1000 hqle
  unfold get_confidence pyRound
  constructor
  · apply div_nonneg _ (by norm_num)
    exact_mod_cast hr0
  · rw [div_le_iff₀ (by norm_num)]
    have : ((roundHalfEven (|p| * 100 * 10 ^ 1) : ℤ) : ℚ) ≤ ((1000 : ℤ) : ℚ) := by
      exact_mod_cast hrle
    calc ((roundHalfEven (|p| * 100 * 10 ^ 1) : ℤ) : ℚ) ≤ ((1000 : ℤ) : ℚ) := this
      _ = 100 * 10 ^ 1 := by norm_num

/-- Claim C5 witness: range instance at p = 1/2. -/
theorem get_confidence_spec_witness :
    0 ≤ get_confidence (1/2) ∧ get_confidence (1/2) ≤ 100 :=
  get_confidence_spec.2.2.2.2 (1/2) (by norm_num) (by norm_num)

/-- Claim C4 counterexample: with base engine score 0.03 on "battery drain"
the negative trigger forces label "Negative" while the classifier maps the
returned polarity -0.03 to "Neutral", so the returned label is not the
classifier applied to the returned polarity. -/
theorem get_sentiment_label_decoupled_cex :
    (get_sentiment (fun _ => 3/100) "battery drain").1 ≠
      classify_polarity (get_sentiment (fun _ => 3/100) "battery drain").2 := by
  with_unfolding_all decide

/-- Claim C4 as amended: the returned label equals the classifier applied
to the returned polarity whenever no trigger matches, or the base polarity
is zero, or the base polarity's magnitude exceeds the 0.05 dead zone; it
can differ only when a trigger fires on a nonzero base polarity of
magnitude at most 0.05. -/
theorem get_sentiment_label_classifier_agreement (score : String → ℚ) (text : String)
    (h : (negTriggered text = false ∧ posTriggered text = false) ∨ score text = 0 ∨
      5/100 < |score text|) :
    (get_sentiment score text).1 = classify_polarity (get_sentiment score text).2 := by
  unfold get_sentiment apply_domain_rules
  cases hn : negTriggered text with
  | true =>
      simp only [hn, if_true]
      by_cases hp : score text = 0
      · rw [if_neg (by simp [hp])]
        symm
        apply classify_neg_of_lt
        norm_num
      · rw [if_pos hp]
        rcases h with ⟨h1, _⟩ | h0 | habs
        · rw [hn] at h1
          cases h1
        · exact absurd h0 hp
        · symm
          apply classify_neg_of_lt
          linarith
  | false =>
      simp only [hn, Bool.false_eq_true, if_false]
      cases hpos : posTriggered text with
      | true =>
          simp only [hpos, if_true]
          by_cases hp : score text = 0
          · rw [if_neg (by simp [hp])]
            symm
            apply classify_pos_of_gt
            norm_num
          · rw [if_pos hp]
            rcases h with ⟨_, h1⟩ | h0 | habs
            · rw [hpos] at h1
              cases h1
            · exact absurd h0 hp
            · symm
              apply classify_pos_of_gt
              linarith [abs_nonneg (score text)]
      | false =>
          simp only [hpos, Bool.false_eq_true, if_false]

/-- Claim C4 witness: agreement instance on a trigger-free text. -/
theorem get_sentiment_label_classifier_agreement_witness :
    (get_sentiment (fun _ => 1/2) "great watch").1 =
      classify_polarity (get_sentiment (fun _ => 1/2) "great watch").2 :=
  get_sentiment_label_classifier_agreement (fun _ => 1/2) "great watch"
    (Or.inl ⟨by with_unfolding_all decide, by with_unfolding_all decide⟩)

/-- Claim C6: the Relevance Detector answers true exactly when the
case-folded text holds at least one domain keyword, or at least two of the
review-phrasing patterns, by plain substring containment; matching inside
a larger word counts ("watch" inside "watching"). -/
theorem is_smartwatch_related_spec :
    (∀ text : String,
      is_smartwatch_related text = true ↔
        ((∃ k ∈ smartwatch_keywords, pyContains k.toList (pyLower text.toList) = true) ∨
          2 ≤ review_patterns.countP
            (fun pat => pyContains pat.toList (pyLower text.toList)))) ∧
    is_smartwatch_related "watching the sunset" = true := by
  constructor
  · intro text
    unfold is_smartwatch_related
    simp only [Bool.or_eq_true, decide_eq_true_eq]
    constructor
    · rintro (h | h)
      · left
        have : 0 < smartwatch_keywords.countP
            (fun keyword => pyContains keyword.toList (pyLower text.toList)) := by omega
        exact List.countP_pos_iff.mp this
      · right
        exact h
    · rintro (⟨k, hk, hpk⟩ | h)
      · left
        have : 0 < smartwatch_keywords.countP
            (fun keyword => pyContains keyword.toList (pyLower text.toList)) :=
          List.countP_pos_iff.mpr ⟨k, hk, hpk⟩
        omega
      · right
        exact h
  · with_unfolding_all decide

/-- The seven aspect names are pairwise distinct. -/
theorem aspect_keys_nodup : (aspect_keywords.map Prod.fst).Nodup := by
  with_unfolding_all decide

/-- Claim C7: the Aspect Extractor emits an entry for an aspect exactly
when at least one sentence matches its keyword set, and every emitted
entry's evidence is the first up-to-2 matched sentences in original order
(hence never more than 2 entries). -/
theorem analyze_aspects_spec (score : String → ℚ) (sentences : List String) :
    (∀ name kws, (name, kws) ∈ aspect_keywords →
      ((∃ r ∈ analyze_aspects score sentences, r.aspect = name) ↔
        matchedSentencesFor kws sentences ≠ [])) ∧
    (∀ r ∈ analyze_aspects score sentences,
      ∃ kws, (r.aspect, kws) ∈ aspect_keywords ∧
        r.evidence = (matchedSentencesFor kws sentences).take 2 ∧
        r.evidence.length ≤ 2) := by
  constructor
  · intro name kws hmem
    constructor
    · rintro ⟨r, hr, haspect⟩
      rw [analyze_aspects, List.mem_filterMap] at hr
      obtain ⟨ak, hak, hfk⟩ := hr
      unfold aspectEntry at hfk
      split at hfk
      · cases hfk
      · next hemp =>
          obtain rfl := Option.some.inj hfk
          have hfst : ak.1 = name := haspect
          have hak2 : ak = (name, kws) :=
            List.inj_on_of_nodup_map aspect_keys_nodup hak hmem hfst
          rw [hak2] at hemp
          simpa [List.isEmpty_iff] using hemp
    · intro hne
      have hemp : ¬ ((matchedSentencesFor kws sentences).isEmpty = true) := by
        simpa [List.isEmpty_iff] using hne
      rw [analyze_aspects]
      refine ⟨{ aspect := name,
                sentiment :=
                  (get_sentiment score
                    (String.intercalate " " (matchedSentencesFor kws sentences))).1,
                polarity :=
                  pyRound (get_sentiment score
                    (String.intercalate " " (matchedSentencesFor kws sentences))).2 3,
                confidence :=
                  get_confidence (get_sentiment score
                    (String.intercalate " " (matchedSentencesFor kws sentences))).2,
                evidence := (matchedSentencesFor kws sentences).take 2 },
              List.mem_filterMap.mpr ⟨(name, kws), hmem, ?_⟩, rfl⟩
      unfold aspectEntry
      rw [if_neg hemp]
  · intro r hr
    rw [analyze_aspects, List.mem_filterMap] at hr
    obtain ⟨ak, hak, hfk⟩ := hr
    unfold aspectEntry at hfk
    split at hfk
    · cases hfk
    · obtain rfl := Option.some.inj hfk
      exact ⟨ak.2, hak, rfl, List.length_take_le 2 _⟩

/-- Claim C7 witness: presence of the Battery entry on a one-sentence text
is equivalent to that sentence matching the Battery keyword set. -/
theorem analyze_aspects_spec_witness :
    ((∃ r ∈ analyze_aspects (fun _ => 0) ["The battery is great."], r.aspect = "Battery") ↔
      matchedSentencesFor ["battery", "charge", "charging", "power", "life"]
        ["The battery is great."] ≠ []) :=
  (analyze_aspects_spec (fun _ => 0) ["The battery is great."]).1 "Battery"
    ["battery", "charge", "charging", "power", "life"] (by with_unfolding_all decide)

/-- Claim C9: with relevance enforcement on, a text the Relevance Detector
rejects gets the fixed rejection response, and the response does not depend
on the base engine or the tokenizer — the sentiment sub-pipeline is never
consulted. -/
theorem api_analyze_review_rejects_irrelevant
    (score score2 : String → ℚ) (tokenize tokenize2 : String → List String)
    (text : String) (hne : pyStripStr text ≠ "")
    (hrel : is_smartwatch_related (pyStripStr text) = false) :
    api_analyze_review score tokenize text true =
        ReviewResponse.notRelevant "Text does not appear to be a smartwatch/product review." ∧
    api_analyze_review score tokenize text true =
        api_analyze_review score2 tokenize2 text true := by
  constructor <;> simp [api_analyze_review, hne, hrel]

/-- Claim C9 witness: the spec's off-domain example text is rejected. -/
theorem api_analyze_review_rejects_irrelevant_witness :
    api_analyze_review (fun _ => 0) (fun _ => []) "The weather today is sunny and warm." true =
      ReviewResponse.notRelevant "Text does not appear to be a smartwatch/product review." :=
  (api_analyze_review_rejects_irrelevant (fun _ => 0) (fun _ => 1) (fun _ => []) (fun t => [t])
    "The weather today is sunny and warm."
    (by with_unfolding_all decide) (by with_unfolding_all decide)).1

/-- Claim C10: an explicitly requested column name is validated against all
columns of the file — an existing non-text-typed column is accepted as long
as some text-typed column exists — while automatic selection only ever
returns the name of a text-typed column. -/
theorem choose_text_column_spec :
    (∀ (columns : List Column) (rc : String),
      (∃ c ∈ columns, c.isText = true) → rc ≠ "" →
      (∃ c ∈ columns, c.name = rc) →
      choose_text_column columns (some rc) = Except.ok rc) ∧
    (∀ (columns : List Column) (r : String),
      choose_text_column columns none = Except.ok r →
      ∃ c ∈ columns, c.isText = true ∧ c.name = r) := by
  constructor
  · intro columns rc htext hrc hname
    unfold choose_text_column
    rcases hfilter : (columns.filter (fun c => c.isText)).map (fun c => c.name) with
      _ | ⟨c0, rest⟩
    · exfalso
      obtain ⟨c, hc, hct⟩ := htext
      have hmem : c.name ∈ (columns.filter (fun c => c.isText)).map (fun c => c.name) :=
        List.mem_map_of_mem _ (List.mem_filter.mpr ⟨hc, by simp [hct]⟩)
      rw [hfilter] at hmem
      simp at hmem
    · rw [hfilter]
      simp [hrc]
      exact hname
  · intro columns r h
    unfold choose_text_column at h
    rcases hfilter : (columns.filter (fun c => c.isText)).map (fun c => c.name) with
      _ | ⟨c0, rest⟩
    · rw [hfilter] at h
      cases h
    · rw [hfilter] at h
      dsimp only at h
      have hr_mem : r ∈ c0 :: rest := by
        rcases hfind : List.find?
            (fun col => (c0 :: rest).contains col)
            ["reviews.text", "text", "review", "reviews", "comment", "comments"] with
          _ | p
        · rw [hfind] at h
          obtain rfl := Except.ok.inj h
          exact List.mem_cons_self _ _
        · rw [hfind] at h
          obtain rfl := Except.ok.inj h
          have := List.find?_some hfind
          simpa using this
      rw [← hfilter] at hr_mem
      obtain ⟨c, hcf, hcn⟩ := List.mem_map.mp hr_mem
      obtain ⟨hc, hct⟩ := List.mem_filter.mp hcf
      exact ⟨c, hc, by simpa using hct, hcn⟩

/-- Claim C10 witness: a file with columns id (non-text) and text
(text-typed) accepts the explicit request for the non-text column id. -/
theorem choose_text_column_spec_witness :
    choose_text_column
        [{ name := "id", isText := false }, { name := "text", isText := true }]
        (some "id") = Except.ok "id" :=
  choose_text_column_spec.1
    [{ name := "id", isText := false }, { name := "text", isText := true }] "id"
    (by with_unfolding_all decide) (by with_unfolding_all decide)
    (by with_unfolding_all decide)

/-- The sentiment sub-pipeline only ever emits the three labels. -/
theorem get_sentiment_label_cases (score : String → ℚ) (text : String) :
    (get_sentiment score text).1 = "Positive" ∨ (get_sentiment score text).1 = "Neutral" ∨
      (get_sentiment score text).1 = "Negative" := by
  unfold get_sentiment apply_domain_rules
  split_ifs <;> simp only [classify_polarity] <;> (try split_ifs) <;> simp

/-- Each batch row is exactly one of: blank (relevant field empty),
relevant, or irrelevant. -/
theorem analyze_row_cases (score : String → ℚ) (c : Option String) :
    ((analyze_row score c).relevant = none ∧ isBlankCell c = true) ∨
    ((analyze_row score c).relevant = some true ∧ isBlankCell c = false) ∨
    ((analyze_row score c).relevant = some false ∧ isBlankCell c = false) := by
  rcases c with _ | s
  · exact Or.inl ⟨rfl, rfl⟩
  · by_cases hb : pyStripStr s = ""
    · exact Or.inl ⟨by simp [analyze_row, hb], by simp [isBlankCell, hb]⟩
    · by_cases hsw : is_smartwatch_related s = true
      · exact Or.inr (Or.inl ⟨by simp [analyze_row, hb, hsw], by simp [isBlankCell, hb]⟩)
      · exact Or.inr (Or.inr ⟨by simp [analyze_row, hb, hsw], by simp [isBlankCell, hb]⟩)

/-- Relevant and irrelevant row counts split the non-blank rows. -/
theorem row_counts (score : String → ℚ) (rows : List (Option String)) :
    (rows.map (analyze_row score)).countP (fun r => r.relevant == some true) +
      (rows.map (analyze_row score)).countP (fun r => r.relevant == some false) =
      rows.countP (fun c => !(isBlankCell c)) := by
  induction rows with
  | nil => rfl
  | cons c cs ih =>
      rcases analyze_row_cases score c with ⟨h1, h2⟩ | ⟨h1, h2⟩ | ⟨h1, h2⟩ <;>
        simp [List.countP_cons, List.countP_map, h1, h2] at ih ⊢ <;> omega

/-- Every relevant batch row carries one of the three labels and a
polarity value. -/
theorem mem_relevant_filter_fields (score : String → ℚ) (rows : List (Option String)) :
    ∀ r ∈ (rows.map (analyze_row score)).filter (fun r => r.relevant == some true),
      (r.sentiment = some "Positive" ∨ r.sentiment = some "Neutral" ∨
        r.sentiment = some "Negative") ∧ r.polarity.isSome = true := by
  intro r hr
  obtain ⟨hrm, hrel⟩ := List.mem_filter.mp hr
  obtain ⟨c, hc, rfl⟩ := List.mem_map.mp hrm
  rcases c with _ | s
  · simp [analyze_row] at hrel
  · by_cases hb : pyStripStr s = ""
    · simp [analyze_row, hb] at hrel
    · by_cases hsw : is_smartwatch_related s = true
      · have hs : (analyze_row score (some s)).sentiment = some (get_sentiment score s).1 := by
          simp [analyze_row, hb, hsw]
        have hp : (analyze_row score (some s)).polarity =
            some (pyRound (get_sentiment score s).2 3) := by
          simp [analyze_row, hb, hsw]
        refine ⟨?_, by simp [hp]⟩
        rw [hs]
        rcases get_sentiment_label_cases score s with h | h | h <;> simp [h]
      · simp [analyze_row, hb, hsw] at hrel

/-- A list whose members all carry one of the three labels has label
counts summing to its length. -/
theorem countP_sentiment_split (l : List RowResult)
    (h : ∀ r ∈ l, r.sentiment = some "Positive" ∨ r.sentiment = some "Neutral" ∨
      r.sentiment = some "Negative") :
    l.countP (fun r => r.sentiment == some "Positive") +
      l.countP (fun r => r.sentiment == some "Neutral") +
      l.countP (fun r => r.sentiment == some "Negative") = l.length := by
  induction l with
  | nil => rfl
  | cons a l ih =>
      have ha := h a (by simp)
      have hl := ih (fun r hr => h r (by simp [hr]))
      rcases ha with ha | ha | ha <;> simp [List.countP_cons, ha] <;> omega

/-- Mapping a some-valued function over a non-empty list cannot give the
empty list. -/
theorem filterMap_ne_nil {α β : Type} (f : α → Option β) (l : List α) (hl : l ≠ [])
    (h : ∀ a ∈ l, (f a).isSome = true) : l.filterMap f ≠ [] := by
  cases l with
  | nil => simp at hl
  | cons a l =>
      obtain ⟨b, hb⟩ := Option.isSome_iff_exists.mp (h a (by simp))
      simp [List.filterMap_cons, hb]

/-- Claim C8, as amended on the average: blank cells count toward the total
row count but toward neither the relevant nor the irrelevant count; the
sentiment distribution exhausts exactly the relevant rows; and the average
polarity is None exactly when no row is relevant, otherwise the arithmetic
mean of the relevant rows' reported polarities rounded to 3 decimal
places. -/
theorem api_analyze_batch_spec (score : String → ℚ) (col : String)
    (rows : List (Option String)) :
    (api_analyze_batch score col rows).1.total_rows = rows.length ∧
    (api_analyze_batch score col rows).1.relevant_count +
        (api_analyze_batch score col rows).1.irrelevant_count =
      rows.countP (fun c => !(isBlankCell c)) ∧
    (api_analyze_batch score col rows).1.sentiment_distribution.positive +
        (api_analyze_batch score col rows).1.sentiment_distribution.neutral +
        (api_analyze_batch score col rows).1.sentiment_distribution.negative =
      (api_analyze_batch score col rows).1.relevant_count ∧
    ((api_analyze_batch score col rows).1.average_polarity = none ↔
      (api_analyze_batch score col rows).1.relevant_count = 0) ∧
    (0 < (api_analyze_batch score col rows).1.relevant_count →
      (api_analyze_batch score col rows).1.average_polarity =
        some (pyRound
          ((((api_analyze_batch score col rows).2.filter
              (fun r => r.relevant == some true)).filterMap (fun r => r.polarity)).sum /
            (((api_analyze_batch score col rows).2.filter
              (fun r => r.relevant == some true)).filterMap (fun r => r.polarity)).length)
          3)) := by
  have hrc : (api_analyze_batch score col rows).1.relevant_count =
      (rows.map (analyze_row score)).countP (fun r => r.relevant == some true) := rfl
  have hic : (api_analyze_batch score col rows).1.irrelevant_count =
      (rows.map (analyze_row score)).countP (fun r => r.relevant == some false) := rfl
  have hrows2 : (api_analyze_batch score col rows).2 = rows.map (analyze_row score) := rfl
  have havg : (api_analyze_batch score col rows).1.average_polarity =
      (if ((rows.map (analyze_row score)).filter
            (fun r => r.relevant == some true)).isEmpty then none
       else if (((rows.map (analyze_row score)).filter
            (fun r => r.relevant == some true)).filterMap (fun r => r.polarity)).isEmpty
         then none
       else some (pyRound
          ((((rows.map (analyze_row score)).filter
              (fun r => r.relevant == some true)).filterMap (fun r => r.polarity)).sum /
            (((rows.map (analyze_row score)).filter
              (fun r => r.relevant == some true)).filterMap (fun r => r.polarity)).length)
          3)) := rfl
  have havg_some : 0 < (api_analyze_batch score col rows).1.relevant_count →
      (api_analyze_batch score col rows).1.average_polarity =
        some (pyRound
          ((((rows.map (analyze_row score)).filter
              (fun r => r.relevant == some true)).filterMap (fun r => r.polarity)).sum /
            (((rows.map (analyze_row score)).filter
              (fun r => r.relevant == some true)).filterMap (fun r => r.polarity)).length)
          3) := by
    intro hpos
    rw [hrc, List.countP_eq_length_filter] at hpos
    have hfil_ne : (rows.map (analyze_row score)).filter
        (fun r => r.relevant == some true) ≠ [] := by
      intro heq
      rw [heq] at hpos
      simp at hpos
    have hfm_ne : (((rows.map (analyze_row score)).filter
        (fun r => r.relevant == some true)).filterMap (fun r => r.polarity)) ≠ [] :=
      filterMap_ne_nil _ _ hfil_ne
        (fun r hr => (mem_relevant_filter_fields score rows r hr).2)
    rw [havg, if_neg (by simpa [List.isEmpty_iff] using hfil_ne),
      if_neg (by simpa [List.isEmpty_iff] using hfm_ne)]
  refine ⟨rfl, ?_, ?_, ?_, ?_⟩
  · rw [hrc, hic]
    exact row_counts score rows
  · rw [hrc, List.countP_eq_length_filter]
    exact countP_sentiment_split _
      (fun r hr => (mem_relevant_filter_fields score rows r hr).1)
  · constructor
    · intro hnone
      by_contra hne
      have hpos := Nat.pos_of_ne_zero hne
      rw [havg_some hpos] at hnone
      cases hnone
    · intro h0
      rw [hrc, List.countP_eq_length_filter] at h0
      have heq : (rows.map (analyze_row score)).filter
          (fun r => r.relevant == some true) = [] := List.length_eq_zero.mp h0
      rw [havg, heq]
      simp
  · intro hpos
    rw [havg_some hpos, hrows2]

set_option maxRecDepth 1000000 in
/-- Claim C8 witness: on the spec's three-row example (one positive, one
blank, one negative) the average is the rounded mean of the two relevant
polarities. -/
theorem api_analyze_batch_spec_witness :
    (api_analyze_batch (fun t => if t = "Love the battery life!" then 1/2 else -(1/2)) "reviews"
        [some "Love the battery life!", some "", some "Terrible screen, cracked."]).1.average_polarity =
      some (pyRound
        ((((api_analyze_batch
              (fun t => if t = "Love the battery life!" then 1/2 else -(1/2)) "reviews"
              [some "Love the battery life!", some "", some "Terrible screen, cracked."]).2.filter
            (fun r => r.relevant == some true)).filterMap (fun r => r.polarity)).sum /
          (((api_analyze_batch
              (fun t => if t = "Love the battery life!" then 1/2 else -(1/2)) "reviews"
              [some "Love the battery life!", some "", some "Terrible screen, cracked."]).2.filter
            (fun r => r.relevant == some true)).filterMap (fun r => r.polarity)).length)
        3) :=
  (api_analyze_batch_spec
      (fun t => if t = "Love the battery life!" then 1/2 else -(1/2)) "reviews"
      [some "Love the battery life!", some "", some "Terrible screen, cracked."]).2.2.2.2
    (by with_unfolding_all decide)

set_option maxRecDepth 1000000 in
/-- Claim C8 counterexample: with relevant rows of reported polarities 0.1,
0.2 and 0.2 the summary's average polarity is 0.167 — the rounded mean —
while the arithmetic mean of the rows' polarities is 1/6, so the average
does not equal the arithmetic mean as claimed. -/
theorem api_analyze_batch_average_cex :
    (api_analyze_batch (fun t => if t = "battery a" then 1/10 else 2/10) "col"
        [some "battery a", some "battery b", some "battery c"]).1.average_polarity =
      some (167/1000) ∧
    ((167 : ℚ)/1000) ≠
      ((((api_analyze_batch (fun t => if t = "battery a" then 1/10 else 2/10) "col"
            [some "battery a", some "battery b", some "battery c"]).2.filter
          (fun r => r.relevant == some true)).filterMap (fun r => r.polarity)).sum /
        ((((api_analyze_batch (fun t => if t = "battery a" then 1/10 else 2/10) "col"
            [some "battery a", some "battery b", some "battery c"]).2.filter
          (fun r => r.relevant == some true)).filterMap (fun r => r.polarity)).length : ℚ)) := by
  constructor <;> with_unfolding_all decide

end SmartwatchApp
